import Mathlib

/-
Shallow embedding of the Shopify product scraper's normalization core
(`parse_product_data`) and of the paginated fetch loop (`get_products_json`)
from src/app.py, together with theorems settling the specification claims.

Python dictionaries holding heterogeneous cell values (strings, integers,
booleans, None) are modelled by the `Cell` type; every output column of the
flat row schema is a `Cell`.  Nullable / possibly-absent JSON fields are
modelled with `Option`: for variant option fields and image `alt` the value
`none` models JSON null (the key is always present in Shopify payloads),
while for the remaining fields `none` models an absent key, matching the
`dict.get(key, default)` reads in the source.
-/

namespace ShopifyScraper

/-- A value stored in one column of an output row: the Python dict values are
strings, ints, booleans or None. -/
inductive Cell where
  | str (s : String)
  | int (n : Int)
  | bool (b : Bool)
  | null
deriving Repr, DecidableEq

/-- Raw image record as fetched (`id`, `src`, `alt`, `position`), all fields
nullable/absent. -/
structure RawImage where
  id : Option Int
  src : Option String
  alt : Option String
  position : Option Int
deriving Repr, DecidableEq

/-- Raw variant record as fetched.  Fields mirror the keys read by
`parse_product_data` in src/app.py. -/
structure RawVariant where
  id : Option Int
  title : Option String
  option1 : Option String
  option2 : Option String
  option3 : Option String
  sku : Option String
  grams : Option Int
  inventory_quantity : Option Int
  price : Option String
  compare_at_price : Option String
  requires_shipping : Option Bool
  taxable : Option Bool
  weight_unit : Option String
  available : Option Bool
  image_id : Option Int
deriving Repr, DecidableEq

/-- Raw product record as fetched.  Fields mirror the keys read by
`parse_product_data` in src/app.py. -/
structure RawProduct where
  id : Option Int
  handle : Option String
  title : Option String
  vendor : Option String
  product_type : Option String
  tags : List String
  body_html : Option String
  published_at : Option String
  created_at : Option String
  updated_at : Option String
  collection : Option String
  variants : List RawVariant
  images : List RawImage
deriving Repr, DecidableEq

/-- Python truthiness of an optional string: truthy iff present and non-empty. -/
def truthyStr : Option String → Bool
  | some s => !(s == "")
  | none => false

/-- Python truthiness of an optional integer: truthy iff present and nonzero. -/
def truthyInt : Option Int → Bool
  | some n => !(n == 0)
  | none => false

/-- The cell produced by `variant.get(key, '')` on a nullable string field whose
key is present: a string, or None when the JSON value is null. -/
def optCell : Option String → Cell
  | some s => Cell.str s
  | none => Cell.null

/-- Model of the control-character filter in `clean_text_for_dataframe`
(src/app.py line 45): keep characters with code point at least 32, plus
tab, newline and carriage return. -/
def removeControlChars (s : String) : String :=
  String.mk (s.toList.filter (fun c => 32 ≤ c.toNat || c == '\n' || c == '\r' || c == '\t'))

/-- Model of `re.sub(r'\s+', ' ', text).strip()` (src/app.py line 48):
runs of whitespace collapse to single spaces and the ends are trimmed. -/
def collapseWhitespace (s : String) : String :=
  String.intercalate " " ((s.split Char.isWhitespace).filter (fun w => !(w == "")))

/-- Model of `clean_text_for_dataframe` (src/app.py lines 33-54).  The
utf-8 encode/decode round trip is the identity on well-formed text and is
therefore dropped. -/
def clean_text_for_dataframe (text : String) : String :=
  if text == "" then ""
  else
    let t := collapseWhitespace (removeControlChars text)
    if 2000 < t.length then t.take 2000 ++ "..." else t

/-- Model of the external `BeautifulSoup(...).get_text()` call used for the
Description column (src/app.py line 239): drops angle-bracket tags and keeps
the text between them. -/
def stripHtmlTags (s : String) : String :=
  String.mk (((s.toList.foldl
    (fun (st : Bool × List Char) c =>
      if st.1 then (if c == '>' then (false, st.2) else (true, st.2))
      else if c == '<' then (true, st.2) else (false, c :: st.2))
    (false, []))).2.reverse)

/-- The collection name computed at src/app.py lines 213-215: the product's
`collection` value, or a string built from `product_type` when the collection
is missing/empty and `product_type` is truthy. -/
def collection_name (p : RawProduct) : String :=
  let c := p.collection.getD ""
  if c == "" && truthyStr p.product_type then "Type: " ++ p.product_type.getD "" else c

/-- Last-wins lookup of an image by id, modelling the `image_mapping` dict built
at src/app.py lines 218-224 (later images overwrite earlier ones on id
collision) together with membership tests on it. -/
def image_lookup (images : List RawImage) (key : Option Int) : Option RawImage :=
  images.foldl (fun acc img => if img.id = key then some img else acc) none

/-- The main product image URL, `images[0].get('src', '') if images else ''`
(src/app.py line 243). -/
def main_image (p : RawProduct) : String :=
  match p.images.head? with
  | some img => img.src.getD ""
  | none => ""

/-- The per-variant image URL computed at src/app.py lines 252-257: the mapped
image's src when `image_id` is truthy and resolves in the mapping, else the
main image. -/
def variant_image_url (p : RawProduct) (v : RawVariant) : String :=
  if truthyInt v.image_id then
    match image_lookup p.images v.image_id with
    | some img => img.src.getD ""
    | none => main_image p
  else main_image p

/-- The alt-text cell for a subsequent variant row (src/app.py line 314):
the mapped image's alt when `image_id` is a key of the mapping (no truthiness
test here), else the empty string. -/
def variant_alt_cell (p : RawProduct) (v : RawVariant) : Cell :=
  match image_lookup p.images v.image_id with
  | some img => optCell img.alt
  | none => Cell.str ""

/-- `v.get('option1') and v.get('option1') != 'Default Title'` as a boolean:
option1 is a non-empty string different from the placeholder. -/
def meaningful_option1 (v : RawVariant) : Bool :=
  match v.option1 with
  | some s => !(s == "") && !(s == "Default Title")
  | none => false

/-- `has_real_options` as computed at src/app.py line 246: true iff some
variant has a truthy option1 different from "Default Title". -/
def has_real_options (variants : List RawVariant) : Bool :=
  variants.any meaningful_option1

/-- The default variant synthesized for products with no variants
(src/app.py lines 193-210). -/
def default_variant : RawVariant :=
  { id := none, title := some "Default Title", option1 := none, option2 := none,
    option3 := none, sku := some "", grams := some 0, inventory_quantity := some 0,
    price := some "0", compare_at_price := some "", requires_shipping := some true,
    taxable := some true, weight_unit := some "kg", available := some true,
    image_id := none }

/-- The variant list actually iterated over: the product's variants, or the
single synthesized default variant when that list is empty. -/
def effective_variants (p : RawProduct) : List RawVariant :=
  if p.variants = [] then [default_variant] else p.variants

/-- One flat output row of the Shopify-CSV-shaped schema.  Field names mirror
the column names of the row dicts built in `parse_product_data`
(`ptype` stands for the column named Type). -/
structure OutputRow where
  handle : Cell
  title : Cell
  body_html : Cell
  vendor : Cell
  product_category : Cell
  ptype : Cell
  tags : Cell
  published : Cell
  collection : Cell
  created_at : Cell
  updated_at : Cell
  option1_name : Cell
  option1_value : Cell
  option2_name : Cell
  option2_value : Cell
  option3_name : Cell
  option3_value : Cell
  variant_sku : Cell
  variant_grams : Cell
  variant_inventory_tracker : Cell
  variant_inventory_qty : Cell
  variant_inventory_policy : Cell
  variant_fulfillment_service : Cell
  variant_price : Cell
  variant_compare_at_price : Cell
  variant_requires_shipping : Cell
  variant_taxable : Cell
  variant_weight_unit : Cell
  available : Cell
  variants_count : Cell
  variant_title : Cell
  image_src : Cell
  image_position : Cell
  image_alt_text : Cell
  variant_image : Cell
  description : Cell
deriving Repr, DecidableEq

/-- The `base_product` dict of src/app.py lines 227-240, extended to a full row
whose non-base columns hold placeholder empty strings; every non-base column is
overwritten before a row is emitted, exactly as the Python dict acquires those
keys through `update` before being appended. -/
def base_row (p : RawProduct) : OutputRow :=
  { handle := Cell.str (p.handle.getD "")
    title := Cell.str (p.title.getD "")
    body_html := Cell.str (clean_text_for_dataframe (p.body_html.getD ""))
    vendor := Cell.str (p.vendor.getD "")
    product_category := Cell.str (collection_name p)
    ptype := Cell.str (p.product_type.getD "")
    tags := Cell.str (String.intercalate ", " p.tags)
    published := Cell.str (if truthyStr p.published_at then "TRUE" else "FALSE")
    collection := Cell.str (collection_name p)
    created_at := Cell.str (p.created_at.getD "")
    updated_at := Cell.str (p.updated_at.getD "")
    description := Cell.str (if truthyStr p.body_html then
      clean_text_for_dataframe ((stripHtmlTags (p.body_html.getD "")).trim) else "")
    option1_name := Cell.str ""
    option1_value := Cell.str ""
    option2_name := Cell.str ""
    option2_value := Cell.str ""
    option3_name := Cell.str ""
    option3_value := Cell.str ""
    variant_sku := Cell.str ""
    variant_grams := Cell.str ""
    variant_inventory_tracker := Cell.str ""
    variant_inventory_qty := Cell.str ""
    variant_inventory_policy := Cell.str ""
    variant_fulfillment_service := Cell.str ""
    variant_price := Cell.str ""
    variant_compare_at_price := Cell.str ""
    variant_requires_shipping := Cell.str ""
    variant_taxable := Cell.str ""
    variant_weight_unit := Cell.str ""
    available := Cell.str ""
    variants_count := Cell.str ""
    variant_title := Cell.str ""
    image_src := Cell.str ""
    image_position := Cell.str ""
    image_alt_text := Cell.str ""
    variant_image := Cell.str "" }

/-- The option-field update of src/app.py lines 260-280: populated per variant
when `has_real_options`, all six columns empty otherwise. -/
def option_fields_update (hro : Bool) (v : RawVariant) (row : OutputRow) : OutputRow :=
  if hro then
    { row with
      option1_name := Cell.str "Title"
      option1_value := optCell v.option1
      option2_name := Cell.str (if truthyStr v.option2 then "Color" else "")
      option2_value := optCell v.option2
      option3_name := Cell.str (if truthyStr v.option3 then "Size" else "")
      option3_value := optCell v.option3 }
  else
    { row with
      option1_name := Cell.str ""
      option1_value := Cell.str ""
      option2_name := Cell.str ""
      option2_value := Cell.str ""
      option3_name := Cell.str ""
      option3_value := Cell.str "" }

/-- One variant row (src/app.py lines 249-318): base fields, option fields,
variant-specific fields, and the image fields that depend on the iteration
index. -/
def variant_row (p : RawProduct) (vs : List RawVariant) (hro : Bool)
    (idx : Nat) (v : RawVariant) : OutputRow :=
  let row := option_fields_update hro v (base_row p)
  let row := { row with
    variant_sku := Cell.str (v.sku.getD "")
    variant_grams := Cell.int (v.grams.getD 0)
    variant_inventory_tracker := Cell.str "shopify"
    variant_inventory_qty := Cell.int (v.inventory_quantity.getD 0)
    variant_inventory_policy := Cell.str "deny"
    variant_fulfillment_service := Cell.str "manual"
    variant_price := Cell.str (v.price.getD "0")
    variant_compare_at_price := Cell.str (v.compare_at_price.getD "")
    variant_requires_shipping := Cell.str (if v.requires_shipping.getD true then "TRUE" else "FALSE")
    variant_taxable := Cell.str (if v.taxable.getD true then "TRUE" else "FALSE")
    variant_weight_unit := Cell.str (v.weight_unit.getD "kg")
    available := Cell.str (if v.available.getD false then "TRUE" else "FALSE")
    variants_count := Cell.int (Int.ofNat vs.length)
    variant_title := Cell.str (v.title.getD "Default Title") }
  if idx = 0 then
    { row with
      image_src := Cell.str (main_image p)
      image_position := Cell.int 1
      image_alt_text := (match p.images.head? with
        | some img => optCell img.alt
        | none => Cell.str "")
      variant_image := Cell.str (variant_image_url p v) }
  else
    { row with
      image_src := Cell.str (variant_image_url p v)
      image_position := Cell.int (Int.ofNat (idx + 1))
      image_alt_text := variant_alt_cell p v
      variant_image := Cell.str (variant_image_url p v) }

/-- One additional-image row (src/app.py lines 320-351): base fields, the
image's own fields, and every option and variant field forced to the empty
string. -/
def image_row (p : RawProduct) (pos : Nat) (img : RawImage) : OutputRow :=
  { base_row p with
    image_src := Cell.str (img.src.getD "")
    image_position := Cell.int (Int.ofNat pos)
    image_alt_text := optCell img.alt
    option1_name := Cell.str ""
    option1_value := Cell.str ""
    option2_name := Cell.str ""
    option2_value := Cell.str ""
    option3_name := Cell.str ""
    option3_value := Cell.str ""
    variant_sku := Cell.str ""
    variant_grams := Cell.str ""
    variant_inventory_tracker := Cell.str ""
    variant_inventory_qty := Cell.str ""
    variant_inventory_policy := Cell.str ""
    variant_fulfillment_service := Cell.str ""
    variant_price := Cell.str ""
    variant_compare_at_price := Cell.str ""
    variant_requires_shipping := Cell.str ""
    variant_taxable := Cell.str ""
    variant_weight_unit := Cell.str ""
    variant_image := Cell.str ""
    available := Cell.str ""
    variants_count := Cell.str ""
    variant_title := Cell.str "" }

/-- The `for variant_index, variant in enumerate(variants)` loop
(src/app.py line 249), carrying the running index. -/
def variant_rows (p : RawProduct) (vs : List RawVariant) (hro : Bool) :
    Nat → List RawVariant → List OutputRow
  | _, [] => []
  | idx, v :: rest => variant_row p vs hro idx v :: variant_rows p vs hro (idx + 1) rest

/-- The `for img_index, image in enumerate(images[1:], 2)` loop
(src/app.py line 322), carrying the running position. -/
def image_rows (p : RawProduct) : Nat → List RawImage → List OutputRow
  | _, [] => []
  | pos, img :: rest => image_row p pos img :: image_rows p (pos + 1) rest

/-- The per-product body of `parse_product_data` (src/app.py lines 183-351):
zero rows when the product has no images, else one row per (effective) variant
followed by one row per image beyond the first. -/
def parse_one_product (p : RawProduct) : List OutputRow :=
  if p.images = [] then []
  else
    let vs := effective_variants p
    let hro := has_real_options vs
    variant_rows p vs hro 0 vs ++
      (if 1 < p.images.length then image_rows p 2 (p.images.drop 1) else [])

/-- `parse_product_data` (src/app.py lines 179-353) over a product list; the
unused `fetch_detailed`, `store_url` and `delay` parameters are omitted. -/
def parse_product_data (products : List RawProduct) : List OutputRow :=
  products.flatMap parse_one_product

/-- The body of the `while True` pagination loop of `get_products_json`
(src/app.py lines 79-104), parameterized by the server's response per page.
`page` is the next page to request, `acc` the products gathered so far and
`reqs` the number of page requests made so far; the result pairs the gathered
products with the total number of page requests.  The entry test `50 < page`
is the safety check performed after each increment of `page`. -/
def get_products_json_go {α : Type} (server : Nat → List α) (limit : Nat)
    (page : Nat) (acc : List α) (reqs : Nat) : List α × Nat :=
  if 50 < page then (acc, reqs)
  else
    let products := server page
    if products.isEmpty then (acc, reqs + 1)
    else if products.length < limit then (acc ++ products, reqs + 1)
    else get_products_json_go server limit (page + 1) (acc ++ products) (reqs + 1)
termination_by 51 - page
decreasing_by simp_wf; omega

/-- `get_products_json` (src/app.py lines 64-116), starting at page 1 with no
products gathered. -/
def get_products_json {α : Type} (server : Nat → List α) (limit : Nat) : List α × Nat :=
  get_products_json_go server limit 1 [] 0

/-! Helper lemmas about the row-building loops. -/

theorem variant_rows_length (p : RawProduct) (vs : List RawVariant) (hro : Bool)
    (l : List RawVariant) : ∀ k, (variant_rows p vs hro k l).length = l.length := by
  induction l with
  | nil => intro k; rfl
  | cons v rest ih => intro k; simp [variant_rows, ih]

theorem image_rows_length (p : RawProduct) (l : List RawImage) :
    ∀ k, (image_rows p k l).length = l.length := by
  induction l with
  | nil => intro k; rfl
  | cons img rest ih => intro k; simp [image_rows, ih]

theorem variant_rows_getElem? (p : RawProduct) (vs : List RawVariant) (hro : Bool)
    (l : List RawVariant) :
    ∀ k i, (variant_rows p vs hro k l)[i]? =
      l[i]?.map (fun v => variant_row p vs hro (k + i) v) := by
  induction l with
  | nil => intro k i; simp [variant_rows]
  | cons v rest ih =>
    intro k i
    cases i with
    | zero => simp [variant_rows]
    | succ j =>
      have hkj : k + (j + 1) = (k + 1) + j := by omega
      simp only [variant_rows, List.getElem?_cons_succ, ih (k + 1) j, hkj]

theorem image_rows_getElem? (p : RawProduct) (l : List RawImage) :
    ∀ k j, (image_rows p k l)[j]? = l[j]?.map (fun img => image_row p (k + j) img) := by
  induction l with
  | nil => intro k j; simp [image_rows]
  | cons img rest ih =>
    intro k j
    cases j with
    | zero => simp [image_rows]
    | succ j' =>
      have hkj : k + (j' + 1) = (k + 1) + j' := by omega
      simp only [image_rows, List.getElem?_cons_succ, ih (k + 1) j', hkj]

theorem mem_variant_rows {p : RawProduct} {vs : List RawVariant} {hro : Bool}
    {r : OutputRow} :
    ∀ {l : List RawVariant} {k : Nat}, r ∈ variant_rows p vs hro k l →
      ∃ i v, r = variant_row p vs hro i v := by
  intro l
  induction l with
  | nil => intro k h; simp [variant_rows] at h
  | cons v rest ih =>
    intro k h
    rcases List.mem_cons.mp h with h | h
    · exact ⟨k, v, h⟩
    · exact ih h

theorem mem_image_rows {p : RawProduct} {r : OutputRow} :
    ∀ {l : List RawImage} {k : Nat}, r ∈ image_rows p k l →
      ∃ q img, r = image_row p q img := by
  intro l
  induction l with
  | nil => intro k h; simp [image_rows] at h
  | cons img rest ih =>
    intro k h
    rcases List.mem_cons.mp h with h | h
    · exact ⟨k, img, h⟩
    · exact ih h

theorem effective_variants_ne_nil (p : RawProduct) : effective_variants p ≠ [] := by
  unfold effective_variants
  split <;> simp_all

theorem parse_product_data_singleton (p : RawProduct) :
    parse_product_data [p] = parse_one_product p := by
  simp [parse_product_data]

theorem parse_one_product_of_images (p : RawProduct) (h : p.images ≠ []) :
    parse_one_product p =
      variant_rows p (effective_variants p) (has_real_options (effective_variants p))
        0 (effective_variants p) ++
      (if 1 < p.images.length then image_rows p 2 (p.images.drop 1) else []) := by
  unfold parse_one_product
  rw [if_neg h]

theorem parse_one_product_length (p : RawProduct) (h : p.images ≠ []) :
    (parse_one_product p).length =
      (effective_variants p).length + (p.images.length - 1) := by
  rw [parse_one_product_of_images p h]
  rw [List.length_append, variant_rows_length]
  by_cases h1 : 1 < p.images.length
  · rw [if_pos h1, image_rows_length, List.length_drop]
  · rw [if_neg h1]
    have : p.images.length = 1 := by
      cases hl : p.images.length with
      | zero => exact absurd (List.length_eq_zero.mp hl) h
      | succ n => omega
    simp [this]

theorem parse_getElem?_variant (p : RawProduct) (himg : p.images ≠ [])
    (i : Nat) (hi : i < (effective_variants p).length) :
    (parse_product_data [p])[i]? =
      ((effective_variants p)[i]?).map
        (fun v => variant_row p (effective_variants p)
          (has_real_options (effective_variants p)) i v) := by
  rw [parse_product_data_singleton, parse_one_product_of_images p himg,
    List.getElem?_append_left (by rw [variant_rows_length]; exact hi),
    variant_rows_getElem?]
  simp

theorem parse_getElem?_image (p : RawProduct) (h2 : 2 ≤ p.images.length)
    (j : Nat) :
    (parse_product_data [p])[(effective_variants p).length + j]? =
      ((p.images.drop 1)[j]?).map (fun img => image_row p (2 + j) img) := by
  have himg : p.images ≠ [] := by
    intro h
    rw [h] at h2
    simp at h2
  rw [parse_product_data_singleton, parse_one_product_of_images p himg,
    List.getElem?_append_right (by rw [variant_rows_length]; omega),
    if_pos (by omega : 1 < p.images.length), variant_rows_length]
  have hsub : (effective_variants p).length + j - (effective_variants p).length = j := by
    omega
  rw [hsub, image_rows_getElem?]

/-- The eleven base columns two rows must share for the row-group invariant. -/
def base_fields_eq (r s : OutputRow) : Prop :=
  r.handle = s.handle ∧ r.title = s.title ∧ r.body_html = s.body_html ∧
  r.vendor = s.vendor ∧ r.product_category = s.product_category ∧ r.ptype = s.ptype ∧
  r.tags = s.tags ∧ r.published = s.published ∧ r.collection = s.collection ∧
  r.created_at = s.created_at ∧ r.updated_at = s.updated_at

instance (r s : OutputRow) : Decidable (base_fields_eq r s) := by
  unfold base_fields_eq
  infer_instance

theorem variant_row_base_fields (p : RawProduct) (vs : List RawVariant) (hro : Bool)
    (idx : Nat) (v : RawVariant) :
    base_fields_eq (variant_row p vs hro idx v) (base_row p) := by
  unfold variant_row option_fields_update base_fields_eq
  by_cases h0 : idx = 0
  · rw [if_pos h0]
    cases hro
    · exact ⟨rfl, rfl, rfl, rfl, rfl, rfl, rfl, rfl, rfl, rfl, rfl⟩
    · exact ⟨rfl, rfl, rfl, rfl, rfl, rfl, rfl, rfl, rfl, rfl, rfl⟩
  · rw [if_neg h0]
    cases hro
    · exact ⟨rfl, rfl, rfl, rfl, rfl, rfl, rfl, rfl, rfl, rfl, rfl⟩
    · exact ⟨rfl, rfl, rfl, rfl, rfl, rfl, rfl, rfl, rfl, rfl, rfl⟩

theorem image_row_base_fields (p : RawProduct) (pos : Nat) (img : RawImage) :
    base_fields_eq (image_row p pos img) (base_row p) := by
  unfold image_row base_fields_eq
  exact ⟨rfl, rfl, rfl, rfl, rfl, rfl, rfl, rfl, rfl, rfl, rfl⟩

theorem mem_parse_one_product {p : RawProduct} {r : OutputRow}
    (hr : r ∈ parse_one_product p) :
    (∃ i v, r = variant_row p (effective_variants p)
        (has_real_options (effective_variants p)) i v) ∨
    (∃ q img, r = image_row p q img) := by
  by_cases himg : p.images = []
  · rw [parse_one_product, if_pos himg] at hr
    simp at hr
  · rw [parse_one_product_of_images p himg] at hr
    rcases List.mem_append.mp hr with h | h
    · exact Or.inl (mem_variant_rows h)
    · right
      by_cases h1 : 1 < p.images.length
      · rw [if_pos h1] at h
        exact mem_image_rows h
      · rw [if_neg h1] at h
        simp at h

theorem mem_parse_base_fields {p : RawProduct} {r : OutputRow}
    (hr : r ∈ parse_product_data [p]) : base_fields_eq r (base_row p) := by
  rw [parse_product_data_singleton] at hr
  rcases mem_parse_one_product hr with ⟨i, v, rfl⟩ | ⟨q, img, rfl⟩
  · exact variant_row_base_fields p _ _ i v
  · exact image_row_base_fields p q img

/-- The four boolean-valued columns of a variant row. -/
theorem variant_row_flag_cells (p : RawProduct) (vs : List RawVariant) (hro : Bool)
    (idx : Nat) (v : RawVariant) :
    (variant_row p vs hro idx v).variant_requires_shipping =
      Cell.str (if v.requires_shipping.getD true then "TRUE" else "FALSE") ∧
    (variant_row p vs hro idx v).variant_taxable =
      Cell.str (if v.taxable.getD true then "TRUE" else "FALSE") ∧
    (variant_row p vs hro idx v).available =
      Cell.str (if v.available.getD false then "TRUE" else "FALSE") ∧
    (variant_row p vs hro idx v).published = (base_row p).published := by
  unfold variant_row option_fields_update
  by_cases h0 : idx = 0
  · rw [if_pos h0]
    cases hro
    · exact ⟨rfl, rfl, rfl, rfl⟩
    · exact ⟨rfl, rfl, rfl, rfl⟩
  · rw [if_neg h0]
    cases hro
    · exact ⟨rfl, rfl, rfl, rfl⟩
    · exact ⟨rfl, rfl, rfl, rfl⟩

/-- The four boolean-valued columns of an additional-image row. -/
theorem image_row_flag_cells (p : RawProduct) (pos : Nat) (img : RawImage) :
    (image_row p pos img).variant_requires_shipping = Cell.str "" ∧
    (image_row p pos img).variant_taxable = Cell.str "" ∧
    (image_row p pos img).available = Cell.str "" ∧
    (image_row p pos img).published = (base_row p).published := by
  exact ⟨rfl, rfl, rfl, rfl⟩

theorem base_row_published (p : RawProduct) :
    (base_row p).published =
      Cell.str (if truthyStr p.published_at then "TRUE" else "FALSE") := rfl

/-- A variant row carries `Image Position = 1` exactly when it is the row of
the first variant. -/
theorem variant_row_pos_one_iff (p : RawProduct) (vs : List RawVariant) (hro : Bool)
    (idx : Nat) (v : RawVariant) :
    ((variant_row p vs hro idx v).image_position = Cell.int 1) ↔ idx = 0 := by
  unfold variant_row
  by_cases h0 : idx = 0
  · rw [if_pos h0]
    simp [h0]
  · rw [if_neg h0]
    simp only [Cell.int.injEq, Int.ofNat_eq_natCast]
    constructor
    · intro h
      omega
    · intro h
      exact absurd h h0

theorem image_row_position (p : RawProduct) (pos : Nat) (img : RawImage) :
    (image_row p pos img).image_position = Cell.int (Int.ofNat pos) := rfl

/-- The predicate counting rows with `Image Position = 1`. -/
def pos_is_one (r : OutputRow) : Bool :=
  decide (r.image_position = Cell.int 1)

theorem countP_variant_rows_of_pos (p : RawProduct) (vs : List RawVariant) (hro : Bool)
    (l : List RawVariant) :
    ∀ k, 1 ≤ k → (variant_rows p vs hro k l).countP pos_is_one = 0 := by
  induction l with
  | nil => intro k _; rfl
  | cons v rest ih =>
    intro k hk
    rw [variant_rows, List.countP_cons]
    have hfalse : pos_is_one (variant_row p vs hro k v) = false := by
      rw [pos_is_one, decide_eq_false_iff_not, variant_row_pos_one_iff]
      omega
    rw [hfalse, ih (k + 1) (by omega)]
    rfl

theorem countP_image_rows (p : RawProduct) (l : List RawImage) :
    ∀ k, 2 ≤ k → (image_rows p k l).countP pos_is_one = 0 := by
  induction l with
  | nil => intro k _; rfl
  | cons img rest ih =>
    intro k hk
    rw [image_rows, List.countP_cons]
    have hfalse : pos_is_one (image_row p k img) = false := by
      rw [pos_is_one, decide_eq_false_iff_not, image_row_position]
      intro h
      rw [Cell.int.injEq, Int.ofNat_eq_natCast] at h
      omega
    rw [hfalse, ih (k + 1) (by omega)]
    rfl

theorem countP_variant_rows_start (p : RawProduct) (vs : List RawVariant) (hro : Bool)
    (l : List RawVariant) (hl : l ≠ []) :
    (variant_rows p vs hro 0 l).countP pos_is_one = 1 := by
  cases l with
  | nil => exact absurd rfl hl
  | cons v rest =>
    rw [variant_rows, List.countP_cons]
    have htrue : pos_is_one (variant_row p vs hro 0 v) = true := by
      rw [pos_is_one, decide_eq_true_iff, variant_row_pos_one_iff]
    rw [htrue, countP_variant_rows_of_pos p vs hro rest 1 (by omega)]
    rfl

/-- A row whose six option columns are all empty strings. -/
def option_fields_empty (r : OutputRow) : Prop :=
  r.option1_name = Cell.str "" ∧ r.option1_value = Cell.str "" ∧
  r.option2_name = Cell.str "" ∧ r.option2_value = Cell.str "" ∧
  r.option3_name = Cell.str "" ∧ r.option3_value = Cell.str ""

instance (r : OutputRow) : Decidable (option_fields_empty r) := by
  unfold option_fields_empty
  infer_instance

/-- A row whose fifteen variant-level columns are all empty strings (the
fields forced empty on additional-image rows at src/app.py lines 335-349). -/
def variant_fields_empty (r : OutputRow) : Prop :=
  r.variant_sku = Cell.str "" ∧ r.variant_grams = Cell.str "" ∧
  r.variant_inventory_tracker = Cell.str "" ∧ r.variant_inventory_qty = Cell.str "" ∧
  r.variant_inventory_policy = Cell.str "" ∧ r.variant_fulfillment_service = Cell.str "" ∧
  r.variant_price = Cell.str "" ∧ r.variant_compare_at_price = Cell.str "" ∧
  r.variant_requires_shipping = Cell.str "" ∧ r.variant_taxable = Cell.str "" ∧
  r.variant_weight_unit = Cell.str "" ∧ r.variant_image = Cell.str "" ∧
  r.available = Cell.str "" ∧ r.variants_count = Cell.str "" ∧
  r.variant_title = Cell.str ""

instance (r : OutputRow) : Decidable (variant_fields_empty r) := by
  unfold variant_fields_empty
  infer_instance

theorem image_row_empty_fields (p : RawProduct) (pos : Nat) (img : RawImage) :
    option_fields_empty (image_row p pos img) ∧
    variant_fields_empty (image_row p pos img) :=
  ⟨⟨rfl, rfl, rfl, rfl, rfl, rfl⟩,
    ⟨rfl, rfl, rfl, rfl, rfl, rfl, rfl, rfl, rfl, rfl, rfl, rfl, rfl, rfl, rfl⟩⟩

/-- The six option columns of a variant row when `has_real_options` is true
(src/app.py lines 260-269). -/
theorem variant_row_options_of_hro (p : RawProduct) (vs : List RawVariant)
    (idx : Nat) (v : RawVariant) :
    (variant_row p vs true idx v).option1_name = Cell.str "Title" ∧
    (variant_row p vs true idx v).option1_value = optCell v.option1 ∧
    (variant_row p vs true idx v).option2_name =
      Cell.str (if truthyStr v.option2 then "Color" else "") ∧
    (variant_row p vs true idx v).option2_value = optCell v.option2 ∧
    (variant_row p vs true idx v).option3_name =
      Cell.str (if truthyStr v.option3 then "Size" else "") ∧
    (variant_row p vs true idx v).option3_value = optCell v.option3 := by
  unfold variant_row option_fields_update
  by_cases h0 : idx = 0
  · rw [if_pos h0]
    exact ⟨rfl, rfl, rfl, rfl, rfl, rfl⟩
  · rw [if_neg h0]
    exact ⟨rfl, rfl, rfl, rfl, rfl, rfl⟩

/-- The six option columns of a variant row when `has_real_options` is false
(src/app.py lines 270-280). -/
theorem variant_row_options_of_not_hro (p : RawProduct) (vs : List RawVariant)
    (idx : Nat) (v : RawVariant) :
    option_fields_empty (variant_row p vs false idx v) := by
  unfold variant_row option_fields_update option_fields_empty
  by_cases h0 : idx = 0
  · rw [if_pos h0]
    exact ⟨rfl, rfl, rfl, rfl, rfl, rfl⟩
  · rw [if_neg h0]
    exact ⟨rfl, rfl, rfl, rfl, rfl, rfl⟩

/-- Variant title and price columns of a variant row (src/app.py lines 290,
297). -/
theorem variant_row_title_price (p : RawProduct) (vs : List RawVariant) (hro : Bool)
    (idx : Nat) (v : RawVariant) :
    (variant_row p vs hro idx v).variant_title = Cell.str (v.title.getD "Default Title") ∧
    (variant_row p vs hro idx v).variant_price = Cell.str (v.price.getD "0") := by
  unfold variant_row
  by_cases h0 : idx = 0
  · rw [if_pos h0]
    exact ⟨rfl, rfl⟩
  · rw [if_neg h0]
    exact ⟨rfl, rfl⟩

/-- The image columns of a variant row at iteration index at least 1
(src/app.py lines 309-316). -/
theorem variant_row_image_fields_of_pos (p : RawProduct) (vs : List RawVariant)
    (hro : Bool) (idx : Nat) (v : RawVariant) (h1 : idx ≠ 0) :
    (variant_row p vs hro idx v).image_src = Cell.str (variant_image_url p v) ∧
    (variant_row p vs hro idx v).image_position = Cell.int (Int.ofNat (idx + 1)) ∧
    (variant_row p vs hro idx v).image_alt_text = variant_alt_cell p v ∧
    (variant_row p vs hro idx v).variant_image = Cell.str (variant_image_url p v) := by
  unfold variant_row
  rw [if_neg h1]
  exact ⟨rfl, rfl, rfl, rfl⟩

/-- Retrieving the i-th output row of a single product with an i-th variant:
it is exactly the variant row built for that variant. -/
theorem parse_variant_row_eq {p : RawProduct} {i : Nat} {r : OutputRow}
    {v : RawVariant} (hv : (effective_variants p)[i]? = some v)
    (hr : (parse_product_data [p])[i]? = some r) :
    p.images ≠ [] ∧
    r = variant_row p (effective_variants p)
      (has_real_options (effective_variants p)) i v := by
  have hi : i < (effective_variants p).length := (List.getElem?_eq_some_iff.mp hv).1
  by_cases himg : p.images = []
  · rw [parse_product_data_singleton, parse_one_product, if_pos himg] at hr
    simp at hr
  · refine ⟨himg, ?_⟩
    rw [parse_getElem?_variant p himg i hi, hv] at hr
    simp only [Option.map_some', Option.some.injEq] at hr
    exact hr.symm

/-! Lemmas about the pagination loop. -/

theorem get_products_json_go_reqs_le {α : Type} (server : Nat → List α) (limit : Nat) :
    ∀ (n page : Nat), 51 - page ≤ n → ∀ (acc : List α) (reqs : Nat),
      (get_products_json_go server limit page acc reqs).2 ≤ reqs + (51 - page) := by
  intro n
  induction n with
  | zero =>
    intro page hpage acc reqs
    unfold get_products_json_go
    rw [if_pos (by omega : 50 < page)]
    exact Nat.le_add_right _ _
  | succ m ih =>
    intro page hpage acc reqs
    unfold get_products_json_go
    by_cases hp : 50 < page
    · rw [if_pos hp]
      exact Nat.le_add_right _ _
    · rw [if_neg hp]
      dsimp only
      by_cases he : (server page).isEmpty
      · rw [if_pos he]
        have : 1 ≤ 51 - page := by omega
        omega
      · rw [if_neg he]
        by_cases hlen : (server page).length < limit
        · rw [if_pos hlen]
          have : 1 ≤ 51 - page := by omega
          omega
        · rw [if_neg hlen]
          have h := ih (page + 1) (by omega) (acc ++ server page) (reqs + 1)
          omega

theorem get_products_json_go_stop {α : Type} (server : Nat → List α) (limit : Nat)
    (page : Nat) (acc : List α) (reqs : Nat) (hp : page ≤ 50)
    (h : server page = [] ∨ (server page).length < limit) :
    (get_products_json_go server limit page acc reqs).2 = reqs + 1 := by
  unfold get_products_json_go
  rw [if_neg (by omega : ¬ 50 < page)]
  dsimp only
  by_cases he : (server page).isEmpty
  · rw [if_pos he]
  · rw [if_neg he]
    rcases h with h | h
    · exact absurd (by rw [h]; rfl) he
    · rw [if_pos h]

/-! Concrete records used by witnesses and counterexamples. -/

/-- A variant record with every key absent/null. -/
def empty_variant : RawVariant :=
  { id := none, title := none, option1 := none, option2 := none, option3 := none,
    sku := none, grams := none, inventory_quantity := none, price := none,
    compare_at_price := none, requires_shipping := none, taxable := none,
    weight_unit := none, available := none, image_id := none }

/-- A product record with every key absent/null and no variants or images. -/
def empty_product : RawProduct :=
  { id := none, handle := none, title := none, vendor := none, product_type := none,
    tags := [], body_html := none, published_at := none, created_at := none,
    updated_at := none, collection := none, variants := [], images := [] }

def img_one : RawImage :=
  { id := some 11, src := some "http://img1", alt := some "alt one", position := some 1 }

def img_two : RawImage :=
  { id := some 12, src := some "http://img2", alt := none, position := some 2 }

/-- Two variants that both carry the same meaningful option1 value. -/
def pSameRed : RawProduct :=
  { empty_product with
    variants := [{ empty_variant with option1 := some "Red" },
      { empty_variant with option1 := some "Red" }],
    images := [img_one] }

/-- Two variants with no option values at all, one image. -/
def pTwoPlain : RawProduct :=
  { empty_product with
    variants := [empty_variant, empty_variant],
    images := [img_one] }

/-- One variant, two images. -/
def pOneVarTwoImgs : RawProduct :=
  { empty_product with
    variants := [empty_variant],
    images := [img_one, img_two] }

/-- No variants, one image. -/
def pNoVariants : RawProduct :=
  { empty_product with images := [img_one] }

/-- One variant, no images. -/
def pNoImages : RawProduct :=
  { empty_product with variants := [empty_variant] }

/-- One variant with a meaningful option1 and one variant with all options
null. -/
def pMixed : RawProduct :=
  { empty_product with
    variants := [{ empty_variant with option1 := some "Red" }, empty_variant],
    images := [img_one] }

/-! Claim theorems. -/

/-- C1 counterexample: the claim says a product whose variants all carry the
same single non-null, non-default option1 value has `hasRealOptions = false`
and empty option fields on every emitted row.  On the code, for a product
whose two variants both carry option1 = "Red", `has_real_options` is true and
both variant rows carry "Red" in the Option1 Value column. -/
theorem c1_counterexample :
    has_real_options (effective_variants pSameRed) = true ∧
    (parse_product_data [pSameRed]).map OutputRow.option1_value =
      [Cell.str "Red", Cell.str "Red"] ∧
    Cell.str "Red" ≠ Cell.str "" := by
  refine ⟨by decide, by decide, by decide⟩

/-- C1 (amended): `has_real_options` is computed as "some variant has a
non-empty option1 different from the placeholder" (src/app.py line 246), not
as a distinct-tuple cardinality test.  Consequently, for every RawProduct
whose variants all carry the same single non-null, non-default option1 value,
`has_real_options` is TRUE, and every variant row carries Option1 Name =
"Title" and Option1 Value = that value. -/
theorem c1_amended (p : RawProduct) (s : String) (hs : s ≠ "")
    (hsd : s ≠ "Default Title")
    (hall : ∀ v ∈ effective_variants p, v.option1 = some s) :
    has_real_options (effective_variants p) = true ∧
    ∀ (i : Nat) (r : OutputRow), i < (effective_variants p).length →
      (parse_product_data [p])[i]? = some r →
      r.option1_name = Cell.str "Title" ∧ r.option1_value = Cell.str s := by
  have hne := effective_variants_ne_nil p
  have hro : has_real_options (effective_variants p) = true := by
    cases hvs : effective_variants p with
    | nil => exact absurd hvs hne
    | cons v rest =>
      have hv : v.option1 = some s := hall v (by rw [hvs]; exact List.mem_cons_self v rest)
      have hm : meaningful_option1 v = true := by
        unfold meaningful_option1
        rw [hv]
        simp [hs, hsd]
      show (v :: rest).any meaningful_option1 = true
      rw [List.any_cons, hm]
      rfl
  refine ⟨hro, ?_⟩
  intro i r hi hr
  obtain ⟨v, hv⟩ : ∃ v, (effective_variants p)[i]? = some v :=
    ⟨_, List.getElem?_eq_getElem hi⟩
  obtain ⟨himg, rfl⟩ := parse_variant_row_eq hv hr
  rw [hro]
  obtain ⟨h1, h2, _, _, _, _⟩ := variant_row_options_of_hro p (effective_variants p) i v
  refine ⟨h1, ?_⟩
  rw [h2, hall v (List.getElem?_mem hv)]
  rfl

/-- C1 witness: the amended claim applied to the concrete product whose two
variants both carry option1 = "Red". -/
theorem c1_witness :
    has_real_options (effective_variants pSameRed) = true ∧
    ∀ (i : Nat) (r : OutputRow), i < (effective_variants pSameRed).length →
      (parse_product_data [pSameRed])[i]? = some r →
      r.option1_name = Cell.str "Title" ∧ r.option1_value = Cell.str "Red" :=
  c1_amended pSameRed "Red" (by decide) (by decide) (by decide)

/-- C2 counterexample: the claim says variant rows at iteration index at least
1 have empty Image Src / Image Position / Image Alt Text, and an empty Variant
Image when the variant's imageId does not resolve.  On the code, for a product
with one image and two variants without image ids, the second row carries the
main image URL in Image Src and Variant Image and the integer 2 in Image
Position. -/
theorem c2_counterexample :
    ((parse_product_data [pTwoPlain])[1]?).map
      (fun r => (r.image_src, r.image_position, r.image_alt_text, r.variant_image)) =
      some (Cell.str "http://img1", Cell.int 2, Cell.str "", Cell.str "http://img1") ∧
    Cell.str "http://img1" ≠ Cell.str "" := by
  refine ⟨by decide, by decide⟩

/-- C2 (amended): for every variant row at iteration index i at least 1, Image
Src and Variant Image both hold the variant's mapped image URL when its
imageId is truthy and resolves, else the main image URL; Image Position holds
the integer i+1; and Image Alt Text holds the mapped image's alt when the
imageId is a key of the image mapping, else the empty string (src/app.py
lines 309-316). -/
theorem c2_amended (p : RawProduct) (i : Nat) (r : OutputRow) (v : RawVariant)
    (h1 : 1 ≤ i) (hv : (effective_variants p)[i]? = some v)
    (hr : (parse_product_data [p])[i]? = some r) :
    r.image_src = Cell.str (variant_image_url p v) ∧
    r.image_position = Cell.int (Int.ofNat (i + 1)) ∧
    r.image_alt_text = variant_alt_cell p v ∧
    r.variant_image = Cell.str (variant_image_url p v) := by
  obtain ⟨himg, rfl⟩ := parse_variant_row_eq hv hr
  exact variant_row_image_fields_of_pos p _ _ i v (by omega)

/-- C2 witness: the amended claim applied to the second row of the concrete
two-variant, one-image product. -/
theorem c2_witness :
    (variant_row pTwoPlain (effective_variants pTwoPlain)
        (has_real_options (effective_variants pTwoPlain)) 1 empty_variant).image_src =
      Cell.str (variant_image_url pTwoPlain empty_variant) ∧
    (variant_row pTwoPlain (effective_variants pTwoPlain)
        (has_real_options (effective_variants pTwoPlain)) 1 empty_variant).image_position =
      Cell.int (Int.ofNat 2) ∧
    (variant_row pTwoPlain (effective_variants pTwoPlain)
        (has_real_options (effective_variants pTwoPlain)) 1 empty_variant).image_alt_text =
      variant_alt_cell pTwoPlain empty_variant ∧
    (variant_row pTwoPlain (effective_variants pTwoPlain)
        (has_real_options (effective_variants pTwoPlain)) 1 empty_variant).variant_image =
      Cell.str (variant_image_url pTwoPlain empty_variant) :=
  c2_amended pTwoPlain 1 _ empty_variant (by decide) (by decide) rfl

/-- C3: for every RawProduct with at least two images, the emitted row count
is (number of effective variants) + (number of images - 1); exactly one row
has Image Position = 1; and the additional-image row for the (j+2)-nd image
sits right after the variant rows, carries Image Position = j+2 (strictly
increasing from 2 in image order) and has all six option columns and all
fifteen variant columns equal to the empty string. -/
theorem c3_confirmed (p : RawProduct) (h2 : 2 ≤ p.images.length) :
    (parse_product_data [p]).length =
      (effective_variants p).length + (p.images.length - 1) ∧
    (parse_product_data [p]).countP pos_is_one = 1 ∧
    ∀ (j : Nat) (r : OutputRow), j < p.images.length - 1 →
      (parse_product_data [p])[(effective_variants p).length + j]? = some r →
      r.image_position = Cell.int (Int.ofNat (j + 2)) ∧
      option_fields_empty r ∧ variant_fields_empty r := by
  have himg : p.images ≠ [] := by
    intro h
    rw [h] at h2
    simp at h2
  refine ⟨?_, ?_, ?_⟩
  · rw [parse_product_data_singleton]
    exact parse_one_product_length p himg
  · rw [parse_product_data_singleton, parse_one_product_of_images p himg,
      List.countP_append,
      countP_variant_rows_start p _ _ _ (effective_variants_ne_nil p),
      if_pos (by omega : 1 < p.images.length),
      countP_image_rows p _ 2 (by omega)]
  · intro j r hj hr
    rw [parse_getElem?_image p h2 j] at hr
    cases hd : (p.images.drop 1)[j]? with
    | none =>
      rw [hd] at hr
      simp at hr
    | some img =>
      rw [hd] at hr
      simp only [Option.map_some', Option.some.injEq] at hr
      subst hr
      refine ⟨?_, (image_row_empty_fields p (2 + j) img).1,
        (image_row_empty_fields p (2 + j) img).2⟩
      rw [image_row_position]
      have : 2 + j = j + 2 := by omega
      rw [this]

/-- C3 witness: the row-count, position-count and image-row properties at the
concrete one-variant, two-image product. -/
theorem c3_witness :
    (parse_product_data [pOneVarTwoImgs]).length =
      (effective_variants pOneVarTwoImgs).length + (pOneVarTwoImgs.images.length - 1) ∧
    (parse_product_data [pOneVarTwoImgs]).countP pos_is_one = 1 ∧
    ∀ (j : Nat) (r : OutputRow), j < pOneVarTwoImgs.images.length - 1 →
      (parse_product_data [pOneVarTwoImgs])[(effective_variants pOneVarTwoImgs).length + j]? =
        some r →
      r.image_position = Cell.int (Int.ofNat (j + 2)) ∧
      option_fields_empty r ∧ variant_fields_empty r :=
  c3_confirmed pOneVarTwoImgs (by decide)

/-- C4: a product with no variants and at least one image gets exactly one
synthesized default variant, and its first emitted row carries Variant Title
"Default Title", Variant Price "0" and six empty option columns. -/
theorem c4_confirmed (p : RawProduct) (hv : p.variants = []) (himg : p.images ≠ []) :
    effective_variants p = [default_variant] ∧
    ∃ r, (parse_product_data [p])[0]? = some r ∧
      r.variant_title = Cell.str "Default Title" ∧
      r.variant_price = Cell.str "0" ∧ option_fields_empty r := by
  have heff : effective_variants p = [default_variant] := by
    unfold effective_variants
    rw [if_pos hv]
  refine ⟨heff, ?_⟩
  have hi : 0 < (effective_variants p).length := by
    rw [heff]
    simp
  have h0 : (effective_variants p)[0]? = some default_variant := by
    rw [heff]
    rfl
  have hro : has_real_options (effective_variants p) = false := by
    rw [heff]
    rfl
  rw [parse_getElem?_variant p himg 0 hi, h0]
  refine ⟨_, rfl, ?_⟩
  rw [hro]
  exact ⟨(variant_row_title_price p _ false 0 default_variant).1,
    (variant_row_title_price p _ false 0 default_variant).2,
    variant_row_options_of_not_hro p _ 0 default_variant⟩

/-- C4 witness: the default-variant row of the concrete zero-variant,
one-image product. -/
theorem c4_witness :
    effective_variants pNoVariants = [default_variant] ∧
    ∃ r, (parse_product_data [pNoVariants])[0]? = some r ∧
      r.variant_title = Cell.str "Default Title" ∧
      r.variant_price = Cell.str "0" ∧ option_fields_empty r :=
  c4_confirmed pNoVariants (by decide) (by decide)

/-- C5: a product with zero images contributes zero output rows, and its
presence anywhere in the input list leaves the rows of the other products
unchanged. -/
theorem c5_confirmed (p : RawProduct) (l1 l2 : List RawProduct)
    (h : p.images = []) :
    parse_one_product p = [] ∧
    parse_product_data (l1 ++ p :: l2) =
      parse_product_data l1 ++ parse_product_data l2 := by
  have h0 : parse_one_product p = [] := by
    unfold parse_one_product
    rw [if_pos h]
  refine ⟨h0, ?_⟩
  unfold parse_product_data
  rw [List.flatMap_append, List.flatMap_cons, h0]
  simp

/-- C5 witness: the zero-image product dropped from a concrete two-product
list. -/
theorem c5_witness :
    parse_one_product pNoImages = [] ∧
    parse_product_data ([pSameRed] ++ pNoImages :: []) =
      parse_product_data [pSameRed] ++ parse_product_data [] :=
  c5_confirmed pNoImages [pSameRed] [] (by decide)

/-- C6 counterexample: the claim says that when `hasRealOptions` is true and a
variant's option1 is null, both Option1 Name and Option1 Value are empty
strings.  On the code, Option1 Name is unconditionally "Title" on every
variant row of such a product: the second variant of the concrete product has
option1 null, yet its row carries Option1 Name = "Title". -/
theorem c6_counterexample :
    has_real_options (effective_variants pMixed) = true ∧
    ((parse_product_data [pMixed])[1]?).map
      (fun r => (r.option1_name, r.option1_value)) =
      some (Cell.str "Title", Cell.null) ∧
    Cell.str "Title" ≠ Cell.str "" := by
  refine ⟨by decide, by decide, by decide⟩

/-- C6 (amended): when `has_real_options` is true, every variant row carries
Option1 Name = "Title" unconditionally and Option1 Value = the raw option1
value (null passes through); Option2 Name is "Color" exactly when option2 is
a non-empty string (even the placeholder "Default Title") and empty otherwise,
with Option2 Value = the raw option2 value, and symmetrically Option3 Name is
"Size" under the same test on option3 (src/app.py lines 260-269). -/
theorem c6_amended (p : RawProduct) (i : Nat) (r : OutputRow) (v : RawVariant)
    (hro : has_real_options (effective_variants p) = true)
    (hv : (effective_variants p)[i]? = some v)
    (hr : (parse_product_data [p])[i]? = some r) :
    r.option1_name = Cell.str "Title" ∧
    r.option1_value = optCell v.option1 ∧
    r.option2_name = Cell.str (if truthyStr v.option2 then "Color" else "") ∧
    r.option2_value = optCell v.option2 ∧
    r.option3_name = Cell.str (if truthyStr v.option3 then "Size" else "") ∧
    r.option3_value = optCell v.option3 := by
  obtain ⟨himg, rfl⟩ := parse_variant_row_eq hv hr
  rw [hro]
  exact variant_row_options_of_hro p (effective_variants p) i v

/-- C6 witness: the amended claim applied to the all-null second variant of
the concrete mixed product. -/
theorem c6_witness :
    (variant_row pMixed (effective_variants pMixed)
        (has_real_options (effective_variants pMixed)) 1 empty_variant).option1_name =
      Cell.str "Title" ∧
    (variant_row pMixed (effective_variants pMixed)
        (has_real_options (effective_variants pMixed)) 1 empty_variant).option1_value =
      optCell empty_variant.option1 ∧
    (variant_row pMixed (effective_variants pMixed)
        (has_real_options (effective_variants pMixed)) 1 empty_variant).option2_name =
      Cell.str (if truthyStr empty_variant.option2 then "Color" else "") ∧
    (variant_row pMixed (effective_variants pMixed)
        (has_real_options (effective_variants pMixed)) 1 empty_variant).option2_value =
      optCell empty_variant.option2 ∧
    (variant_row pMixed (effective_variants pMixed)
        (has_real_options (effective_variants pMixed)) 1 empty_variant).option3_name =
      Cell.str (if truthyStr empty_variant.option3 then "Size" else "") ∧
    (variant_row pMixed (effective_variants pMixed)
        (has_real_options (effective_variants pMixed)) 1 empty_variant).option3_value =
      optCell empty_variant.option3 :=
  c6_amended pMixed 1 _ empty_variant (by decide) (by decide) rfl

/-- C7 counterexample: the claim says every emitted row holds the literal
string "TRUE" or "FALSE" in Published, Variant Requires Shipping, Variant
Taxable and Available.  On the code, additional-image rows hold the empty
string in the latter three columns. -/
theorem c7_counterexample :
    ((parse_product_data [pOneVarTwoImgs])[1]?).map
      (fun r => (r.published, r.variant_requires_shipping, r.variant_taxable,
        r.available)) =
      some (Cell.str "FALSE", Cell.str "", Cell.str "", Cell.str "") ∧
    ¬(Cell.str "" = Cell.str "TRUE" ∨ Cell.str "" = Cell.str "FALSE") := by
  refine ⟨by decide, by decide⟩

/-- C7 (amended): on every emitted row Published is the literal string "TRUE"
or "FALSE"; Variant Requires Shipping, Variant Taxable and Available are
"TRUE" or "FALSE" on variant rows and the empty string on additional-image
rows (hence always one of the three strings); none of the four columns ever
holds a native boolean cell. -/
theorem c7_amended (l : List RawProduct) (r : OutputRow)
    (hr : r ∈ parse_product_data l) :
    (r.published = Cell.str "TRUE" ∨ r.published = Cell.str "FALSE") ∧
    (r.variant_requires_shipping = Cell.str "TRUE" ∨
      r.variant_requires_shipping = Cell.str "FALSE" ∨
      r.variant_requires_shipping = Cell.str "") ∧
    (r.variant_taxable = Cell.str "TRUE" ∨ r.variant_taxable = Cell.str "FALSE" ∨
      r.variant_taxable = Cell.str "") ∧
    (r.available = Cell.str "TRUE" ∨ r.available = Cell.str "FALSE" ∨
      r.available = Cell.str "") ∧
    (∀ b : Bool, r.published ≠ Cell.bool b ∧
      r.variant_requires_shipping ≠ Cell.bool b ∧
      r.variant_taxable ≠ Cell.bool b ∧ r.available ≠ Cell.bool b) := by
  obtain ⟨q, _, hrq⟩ := List.mem_flatMap.mp hr
  have hpub : (base_row q).published = Cell.str "TRUE" ∨
      (base_row q).published = Cell.str "FALSE" := by
    rw [base_row_published]
    cases truthyStr q.published_at
    · exact Or.inr rfl
    · exact Or.inl rfl
  rcases mem_parse_one_product hrq with ⟨i, v, rfl⟩ | ⟨pos, img, rfl⟩
  · obtain ⟨h1, h2, h3, h4⟩ := variant_row_flag_cells q _ _ i v
    rw [h1, h2, h3, h4]
    refine ⟨hpub, ?_, ?_, ?_, ?_⟩
    · cases v.requires_shipping.getD true
      · exact Or.inr (Or.inl rfl)
      · exact Or.inl rfl
    · cases v.taxable.getD true
      · exact Or.inr (Or.inl rfl)
      · exact Or.inl rfl
    · cases v.available.getD false
      · exact Or.inr (Or.inl rfl)
      · exact Or.inl rfl
    · intro b
      refine ⟨?_, ?_, ?_, ?_⟩
      · rcases hpub with h | h <;> rw [h] <;> simp
      · cases v.requires_shipping.getD true <;> simp
      · cases v.taxable.getD true <;> simp
      · cases v.available.getD false <;> simp
  · obtain ⟨h1, h2, h3, h4⟩ := image_row_flag_cells q pos img
    rw [h1, h2, h3, h4]
    refine ⟨hpub, Or.inr (Or.inr rfl), Or.inr (Or.inr rfl), Or.inr (Or.inr rfl), ?_⟩
    intro b
    refine ⟨?_, by simp, by simp, by simp⟩
    rcases hpub with h | h <;> rw [h] <;> simp

/-- C7 witness: the amended claim applied to the additional-image row of the
concrete one-variant, two-image product. -/
theorem c7_witness :
    ((image_row pOneVarTwoImgs 2 img_two).published = Cell.str "TRUE" ∨
      (image_row pOneVarTwoImgs 2 img_two).published = Cell.str "FALSE") ∧
    ((image_row pOneVarTwoImgs 2 img_two).variant_requires_shipping = Cell.str "TRUE" ∨
      (image_row pOneVarTwoImgs 2 img_two).variant_requires_shipping = Cell.str "FALSE" ∨
      (image_row pOneVarTwoImgs 2 img_two).variant_requires_shipping = Cell.str "") ∧
    ((image_row pOneVarTwoImgs 2 img_two).variant_taxable = Cell.str "TRUE" ∨
      (image_row pOneVarTwoImgs 2 img_two).variant_taxable = Cell.str "FALSE" ∨
      (image_row pOneVarTwoImgs 2 img_two).variant_taxable = Cell.str "") ∧
    ((image_row pOneVarTwoImgs 2 img_two).available = Cell.str "TRUE" ∨
      (image_row pOneVarTwoImgs 2 img_two).available = Cell.str "FALSE" ∨
      (image_row pOneVarTwoImgs 2 img_two).available = Cell.str "") ∧
    (∀ b : Bool, (image_row pOneVarTwoImgs 2 img_two).published ≠ Cell.bool b ∧
      (image_row pOneVarTwoImgs 2 img_two).variant_requires_shipping ≠ Cell.bool b ∧
      (image_row pOneVarTwoImgs 2 img_two).variant_taxable ≠ Cell.bool b ∧
      (image_row pOneVarTwoImgs 2 img_two).available ≠ Cell.bool b) :=
  c7_amended [pOneVarTwoImgs] (image_row pOneVarTwoImgs 2 img_two) (by decide)

/-- C8: any two rows emitted for the same product agree on the eleven base
columns Handle, Title, Body (HTML), Vendor, Product Category, Type, Tags,
Published, Collection, Created At and Updated At. -/
theorem c8_confirmed (p : RawProduct) (r s : OutputRow)
    (hr : r ∈ parse_product_data [p]) (hs : s ∈ parse_product_data [p]) :
    base_fields_eq r s := by
  obtain ⟨a1, a2, a3, a4, a5, a6, a7, a8, a9, a10, a11⟩ := mem_parse_base_fields hr
  obtain ⟨b1, b2, b3, b4, b5, b6, b7, b8, b9, b10, b11⟩ := mem_parse_base_fields hs
  exact ⟨a1.trans b1.symm, a2.trans b2.symm, a3.trans b3.symm, a4.trans b4.symm,
    a5.trans b5.symm, a6.trans b6.symm, a7.trans b7.symm, a8.trans b8.symm,
    a9.trans b9.symm, a10.trans b10.symm, a11.trans b11.symm⟩

/-- C8 witness: the variant row and the additional-image row of the concrete
one-variant, two-image product share all base columns. -/
theorem c8_witness :
    base_fields_eq
      (variant_row pOneVarTwoImgs (effective_variants pOneVarTwoImgs)
        (has_real_options (effective_variants pOneVarTwoImgs)) 0 empty_variant)
      (image_row pOneVarTwoImgs 2 img_two) :=
  c8_confirmed pOneVarTwoImgs _ _ (by decide) (by decide)

/-- C9: the pagination loop requests at most 50 pages in every case, and as
soon as the current page (any page up to the cap) returns zero items or fewer
items than the requested page size, it performs exactly that one request and
stops. -/
theorem c9_confirmed {α : Type} (server : Nat → List α) (limit : Nat) :
    (get_products_json server limit).2 ≤ 50 ∧
    (∀ (page : Nat) (acc : List α) (reqs : Nat), page ≤ 50 →
      (server page = [] ∨ (server page).length < limit) →
      (get_products_json_go server limit page acc reqs).2 = reqs + 1) := by
  constructor
  · have h := get_products_json_go_reqs_le server limit 50 1 (by omega) [] 0
    unfold get_products_json
    omega
  · intro page acc reqs hp h
    exact get_products_json_go_stop server limit page acc reqs hp h

/-- C9 witness: the loop bound and the stop condition at a concrete server
that always returns an empty page. -/
theorem c9_witness :
    (get_products_json (fun _ => ([] : List Nat)) 250).2 ≤ 50 ∧
    (get_products_json_go (fun _ => ([] : List Nat)) 250 1 [] 0).2 = 0 + 1 :=
  ⟨(c9_confirmed (fun _ => ([] : List Nat)) 250).1,
    (c9_confirmed (fun _ => ([] : List Nat)) 250).2 1 [] 0 (by omega) (Or.inl rfl)⟩

/-- C10: a variant record omitting the `available` key yields Available =
"FALSE" on its row, while omitted `requires_shipping` and `taxable` default
to "TRUE"; the synthesized default variant of a zero-variant product yields
Available = "TRUE". -/
theorem c10_confirmed (p : RawProduct) (i : Nat) (v : RawVariant) (r : OutputRow)
    (hv : (effective_variants p)[i]? = some v)
    (hr : (parse_product_data [p])[i]? = some r) :
    (v.available = none → r.available = Cell.str "FALSE") ∧
    (v.requires_shipping = none → r.variant_requires_shipping = Cell.str "TRUE") ∧
    (v.taxable = none → r.variant_taxable = Cell.str "TRUE") ∧
    (p.variants = [] → r.available = Cell.str "TRUE") := by
  obtain ⟨himg, rfl⟩ := parse_variant_row_eq hv hr
  obtain ⟨hrs, htx, hav, _⟩ := variant_row_flag_cells p _ _ i v
  refine ⟨?_, ?_, ?_, ?_⟩
  · intro h
    rw [hav, h]
    rfl
  · intro h
    rw [hrs, h]
    rfl
  · intro h
    rw [htx, h]
    rfl
  · intro hveq
    have heff : effective_variants p = [default_variant] := by
      unfold effective_variants
      rw [if_pos hveq]
    rw [heff] at hv
    have hvd : v = default_variant := by
      cases i with
      | zero =>
        simp only [List.getElem?_cons_zero, Option.some.injEq] at hv
        exact hv.symm
      | succ n => simp at hv
    rw [hav, hvd]
    rfl

/-- C10 witness: the defaults at a variant with every key absent (Available
"FALSE", Requires Shipping "TRUE", Taxable "TRUE") and at the synthesized
default variant of a zero-variant product (Available "TRUE"). -/
theorem c10_witness :
    (variant_row pTwoPlain (effective_variants pTwoPlain)
      (has_real_options (effective_variants pTwoPlain)) 0 empty_variant).available =
      Cell.str "FALSE" ∧
    (variant_row pTwoPlain (effective_variants pTwoPlain)
      (has_real_options (effective_variants pTwoPlain)) 0 empty_variant).variant_requires_shipping =
      Cell.str "TRUE" ∧
    (variant_row pTwoPlain (effective_variants pTwoPlain)
      (has_real_options (effective_variants pTwoPlain)) 0 empty_variant).variant_taxable =
      Cell.str "TRUE" ∧
    (variant_row pNoVariants (effective_variants pNoVariants)
      (has_real_options (effective_variants pNoVariants)) 0 default_variant).available =
      Cell.str "TRUE" :=
  ⟨(c10_confirmed pTwoPlain 0 empty_variant _ (by decide) rfl).1 rfl,
    (c10_confirmed pTwoPlain 0 empty_variant _ (by decide) rfl).2.1 rfl,
    (c10_confirmed pTwoPlain 0 empty_variant _ (by decide) rfl).2.2.1 rfl,
    (c10_confirmed pNoVariants 0 default_variant _ (by decide) rfl).2.2.2 rfl⟩

end ShopifyScraper
